import Mathlib

/-!
Shallow embedding of the `Autocomplete` widget from `src/autocomplete.ts`
(with the divergences of the sibling `src/autocomplete.js` build modelled
separately where a claim depends on them).

The widget's mutable instance fields that the claims are about are
`suggestions`, `activeIndex`, and the panel visibility
(`container.style.display !== 'none'`).  DOM side effects (the value
written into the input, `onSelect` invocations, `preventDefault`,
logging) are returned explicitly by the embedded handlers.
-/

namespace Autocomplete

/-- The suggestion-relevant instance state of an `Autocomplete<T>` object:
`suggestions` and `activeIndex` are the fields of the same names,
`visible` is `container.style.display !== 'none'`, and `rendered` is the
list of suggestion elements currently inside the container (the list that
was current at the last `render()` call; `mouseenter` indices refer to it). -/
structure AcState (T : Type) where
  suggestions : List T
  activeIndex : Int
  visible : Bool
  rendered : List T
  deriving Repr, DecidableEq

/-- The state of a freshly constructed instance:
`suggestions = []`, `activeIndex = -1`, container created with
`display: 'none'` and no children. -/
def initState (T : Type) : AcState T :=
  { suggestions := [], activeIndex := -1, visible := false, rendered := [] }

/-- Method `hide()`: sets `container.style.display = 'none'` and `activeIndex = -1`. -/
def hide (s : AcState T) : AcState T :=
  { s with visible := false, activeIndex := -1 }

/-- Method `show()`: sets `container.style.display = 'block'` (positioning is
modelled separately by `updateContainerPosition`). -/
def showPanel (s : AcState T) : AcState T :=
  { s with visible := true }

/-- Method `render()`: clears the container, resets `activeIndex` to `-1`, and
rebuilds one element per entry of `this.suggestions`, in list order. -/
def render (s : AcState T) : AcState T :=
  { s with activeIndex := -1, rendered := s.suggestions }

/-- Assignment `this.suggestions.slice(0, this.options.maxSuggestions)`: the list the
fetch handler stores and subsequently renders. -/
def storeFetched (maxSuggestions : Nat) (result : List T) : List T :=
  result.take maxSuggestions

/-- The body of the debounced fetch callback of `handleInput` on a
successfully resolved array result `xs` (TS build, lines 261-278):
store the truncation, then render-and-show when non-empty, else hide. -/
def fetchResultStep (maxSuggestions : Nat) (s : AcState T) (xs : List T) :
    AcState T :=
  let sugg := storeFetched maxSuggestions xs
  let s' := { s with suggestions := sugg }
  if 0 < sugg.length then showPanel (render s') else hide s'

/-- The keys `handleKeyDown` distinguishes. -/
inductive Key where
  | arrowDown
  | arrowUp
  | enter
  | escape
  | other
  deriving Repr, DecidableEq

/-- The observable effects of one `handleKeyDown` call: the updated
instance state, whether `event.preventDefault()` was called, the item
passed to `onSelect` (if a selection was committed), and the string
written into the input field (if any). -/
structure KeyEffect (T : Type) where
  state : AcState T
  preventDefault : Bool
  selected : Option T
  inputValue : Option String
  deriving Repr, DecidableEq

/-- The observable effects of `selectSuggestion(suggestion)`: the input
value is set to `formatSelectedItem(suggestion)`, `onSelect` is invoked
(the argument list records each invocation, in order), and the panel is
hidden. -/
structure SelectEffect (T : Type) where
  state : AcState T
  inputValue : String
  onSelectArgs : List T
  deriving Repr, DecidableEq

/-- Method `selectSuggestion(suggestion)` from `src/autocomplete.ts` lines
359-366: write the formatted value, call `onSelect` with the item
itself, then `hide()`. -/
def selectSuggestion (formatSelectedItem : T → String) (s : AcState T)
    (suggestion : T) : SelectEffect T :=
  { state := hide s
    inputValue := formatSelectedItem suggestion
    onSelectArgs := [suggestion] }

/-- Method `handleKeyDown(event)` from `src/autocomplete.ts` lines 281-317.
When the panel is hidden the handler returns at once.  `ArrowDown` sets
`activeIndex = Math.min(activeIndex + 1, suggestions.length - 1)`,
`ArrowUp` sets `activeIndex = Math.max(activeIndex - 1, -1)`, both after
`preventDefault`.  `Enter` acts only when `activeIndex >= 0`: it calls
`preventDefault` and then `selectSuggestion(suggestions[activeIndex])`;
when that index is out of range the source would fault on the undefined
element after `preventDefault` (the state is then left unchanged), which
the reachable-state invariant rules out.  `Escape` calls `preventDefault`
and `hide()`.  Other keys fall through. -/
def handleKeyDown (formatSelectedItem : T → String) (s : AcState T)
    (k : Key) : KeyEffect T :=
  if s.visible = false then
    { state := s, preventDefault := false, selected := none, inputValue := none }
  else
    match k with
    | .arrowDown =>
        { state := { s with
            activeIndex := min (s.activeIndex + 1) ((s.suggestions.length : Int) - 1) }
          preventDefault := true, selected := none, inputValue := none }
    | .arrowUp =>
        { state := { s with activeIndex := max (s.activeIndex - 1) (-1) }
          preventDefault := true, selected := none, inputValue := none }
    | .enter =>
        if 0 ≤ s.activeIndex then
          match s.suggestions[s.activeIndex.toNat]? with
          | some item =>
              let e := selectSuggestion formatSelectedItem s item
              { state := e.state, preventDefault := true
                selected := some item, inputValue := some e.inputValue }
          | none =>
              { state := s, preventDefault := true
                selected := none, inputValue := none }
        else
          { state := s, preventDefault := false, selected := none, inputValue := none }
    | .escape =>
        { state := hide s, preventDefault := true, selected := none, inputValue := none }
    | .other =>
        { state := s, preventDefault := false, selected := none, inputValue := none }

/-- The events that mutate the suggestion state of a live instance:
a debounced fetch resolving with an array `xs`, a fetch faulting
(caught: log and `hide()`), a key event, a `mouseenter` on the rendered
element of index `i` (which fires only while the panel is displayed), and
the blur timeout's `hide()`. -/
inductive Event (T : Type) where
  | fetchOk (xs : List T)
  | fetchErr
  | key (k : Key)
  | hover (i : Nat)
  | blurHide

/-- One event step of the widget.  `mouseenter` sets
`activeIndex = index` for the rendered element's captured index; an
element only receives the event while the container is displayed. -/
def step (maxSuggestions : Nat) (formatSelectedItem : T → String)
    (s : AcState T) (e : Event T) : AcState T :=
  match e with
  | .fetchOk xs => fetchResultStep maxSuggestions s xs
  | .fetchErr => hide s
  | .key k => (handleKeyDown formatSelectedItem s k).state
  | .hover i =>
      if s.visible = true ∧ i < s.rendered.length then
        { s with activeIndex := (i : Int) }
      else s
  | .blurHide => hide s

/-- A state is reachable when some event sequence leads to it from the
freshly constructed instance. -/
def run (maxSuggestions : Nat) (formatSelectedItem : T → String)
    (events : List (Event T)) : AcState T :=
  events.foldl (step maxSuggestions formatSelectedItem) (initState T)

/-- The state invariant of claim C1: the active index lies in
`[-1, suggestions.length - 1]`, the stored list never exceeds the
configured maximum, and while the panel is displayed its rendered
elements are exactly the stored suggestions. -/
def Inv (maxSuggestions : Nat) (s : AcState T) : Prop :=
  -1 ≤ s.activeIndex ∧ s.activeIndex < (s.suggestions.length : Int) ∧
    s.suggestions.length ≤ maxSuggestions ∧
    (s.visible = true → s.rendered = s.suggestions)

instance (maxSuggestions : Nat) (s : AcState T) [DecidableEq T] :
    Decidable (Inv maxSuggestions s) := by
  unfold Inv; infer_instance

/-! ### `handleInput` synchronous part and the debounce timer -/

/-- What one `handleInput()` call does after clearing the outstanding
debounce timer: either hide the panel at once, or arm the debounce timer
with a fetch for `query`. -/
inductive InputAction where
  | hideNow
  | schedule (query : String)
  deriving Repr, DecidableEq

/-- The whitespace class of JavaScript's `String.prototype.trim`
(ECMAScript WhiteSpace and LineTerminator code points; the common ones). -/
def isJsWhitespace (c : Char) : Bool :=
  c = ' ' ∨ c = '\t' ∨ c = '\n' ∨ c = '\r' ∨ c = '\x0b' ∨ c = '\x0c' ∨
    c = ' ' ∨ c = '﻿'

/-- JavaScript's `value.trim()`: strip leading and trailing whitespace. -/
def jsTrim (s : String) : String :=
  String.mk (((s.data.dropWhile isJsWhitespace).reverse.dropWhile
    isJsWhitespace).reverse)

/-- The synchronous decision of `handleInput()` (`src/autocomplete.ts`
lines 222-258): with `value = inputElement.value.trim()`, if `value` is
empty and the input is the active element, arm the timer with a fetch for
`''`; otherwise if `value.length < minChars`, `hide()` and return;
otherwise arm the timer with a fetch for `value`. -/
def handleInput (minChars : Nat) (rawValue : String) (focused : Bool) :
    InputAction :=
  let value := jsTrim rawValue
  if value.length = 0 ∧ focused = true then .schedule ""
  else if value.length < minChars then .hideNow
  else .schedule value

/-- The debounce timer and the fetches that actually got issued:
`pending` is the armed timer's query (`debounceTimer` plus the closure it
would run), `fetched` logs each `getSuggestions` invocation, in order. -/
structure DebounceState where
  pending : Option String
  fetched : List String
  deriving Repr, DecidableEq

/-- One input/focus event on the debounce timer: `handleInput` first
clears any existing timeout (`window.clearTimeout`), then its decision
either hides (no timer armed) or arms a fresh timer. -/
def inputEvent (minChars : Nat) (d : DebounceState) (rawValue : String)
    (focused : Bool) : DebounceState :=
  let cleared : DebounceState := { d with pending := none }
  match handleInput minChars rawValue focused with
  | .hideNow => cleared
  | .schedule q => { cleared with pending := some q }

/-- The armed debounce timer expiring: the scheduled fetch is issued
(`getSuggestions(query)` is invoked) and the timer is gone. -/
def timerFire (d : DebounceState) : DebounceState :=
  match d.pending with
  | none => d
  | some q => { pending := none, fetched := d.fetched ++ [q] }

/-- One input/focus event, with its effect both on the panel state and on
the debounce timer: the outstanding timeout is cleared first; then
`handleInput`'s decision either calls `hide()` immediately (arming
nothing) or arms the timer with the query to fetch. -/
def inputEventFull (minChars : Nat) (s : AcState T) (d : DebounceState)
    (rawValue : String) (focused : Bool) : AcState T × DebounceState :=
  let cleared : DebounceState := { d with pending := none }
  match handleInput minChars rawValue focused with
  | .hideNow => (hide s, cleared)
  | .schedule q => (s, { cleared with pending := some q })

/-! ### Fetch-result handling in the two builds (claim C6) -/

/-- The value of the `this.suggestions` field, which JavaScript lets hold
a non-array when `getSuggestions` resolves to one. -/
inductive SuggField (T : Type) where
  | junk
  | arr (xs : List T)
  deriving Repr, DecidableEq

/-- The instance state the fetch callback touches: the raw
`this.suggestions` field and the panel visibility. -/
structure FetchState (T : Type) where
  suggestions : SuggField T
  visible : Bool
  deriving Repr, DecidableEq

/-- How a `getSuggestions` call can come back: a resolved array, a
resolved non-array value, or a throw / rejection. -/
inductive FetchOutcome (T : Type) where
  | ok (xs : List T)
  | malformed
  | error
  deriving Repr, DecidableEq

/-- Fetch-callback effects beside the state: whether `console.error` ran
and whether an exception escaped the callback to the caller. -/
structure FetchEffect (T : Type) where
  state : FetchState T
  logged : Bool
  propagated : Bool
  deriving Repr, DecidableEq

/-- The debounced fetch callback of the TS build (`src/autocomplete.ts`
lines 261-278).  The whole body is one `try`: assign the resolved value
to `this.suggestions`, call `.slice(0, maxSuggestions)` on it (a
`TypeError` when the value is not an array), then render-and-show or
hide; `catch` logs the error and hides.  There is no `Array.isArray`
check, so a malformed value is only stopped by the thrown `TypeError`,
which the same `catch` turns into log-and-hide (the field keeps the
junk value assigned before the throw). -/
def handleFetchResultTS (maxSuggestions : Nat) (st : FetchState T)
    (r : FetchOutcome T) : FetchEffect T :=
  match r with
  | .ok xs =>
      let sugg := storeFetched maxSuggestions xs
      if 0 < sugg.length then
        { state := { suggestions := .arr sugg, visible := true }
          logged := false, propagated := false }
      else
        { state := { suggestions := .arr sugg, visible := false }
          logged := false, propagated := false }
  | .malformed =>
      { state := { suggestions := .junk, visible := false }
        logged := true, propagated := false }
  | .error =>
      { state := { st with visible := false }
        logged := true, propagated := false }

/-- The debounced fetch callback of the JS build (`src/autocomplete.js`
lines 215-237): same `try`/`catch`, but the slice / render / hide block
is guarded by `if (this.suggestions && Array.isArray(this.suggestions))`.
A malformed resolved value fails that guard, so the callback does
nothing further: no render, no `hide()`, no log — the panel keeps its
previous visibility while `this.suggestions` keeps the junk value. -/
def handleFetchResultJS (maxSuggestions : Nat) (st : FetchState T)
    (r : FetchOutcome T) : FetchEffect T :=
  match r with
  | .ok xs =>
      let sugg := storeFetched maxSuggestions xs
      if 0 < sugg.length then
        { state := { suggestions := .arr sugg, visible := true }
          logged := false, propagated := false }
      else
        { state := { suggestions := .arr sugg, visible := false }
          logged := false, propagated := false }
  | .malformed =>
      { state := { st with suggestions := .junk }
        logged := false, propagated := false }
  | .error =>
      { state := { st with visible := false }
        logged := true, propagated := false }

/-! ### Panel positioning (claim C8) -/

/-- The fields of `inputElement.getBoundingClientRect()` the positioning
code reads (viewport coordinates). -/
structure Rect where
  top : Int
  bottom : Int
  left : Int
  width : Int
  deriving Repr, DecidableEq

/-- The style the positioning code writes to the container. -/
structure PanelPos where
  width : Int
  left : Int
  top : Int
  above : Bool
  deriving Repr, DecidableEq

/-- Method `updateContainerPosition()` of the TS build (`src/autocomplete.ts`
lines 151-174): `spaceBelow = window.innerHeight - inputRect.bottom`,
`spaceAbove = inputRect.top`; the width is set to `inputRect.width`, the
left offset to `inputRect.left + window.scrollX`; the panel goes above
the input exactly when `spaceBelow < containerHeight` and
`spaceAbove > spaceBelow`, else below. -/
def updateContainerPosition (inputRect : Rect) (containerHeight : Int)
    (innerHeight scrollX scrollY : Int) : PanelPos :=
  let spaceBelow := innerHeight - inputRect.bottom
  let spaceAbove := inputRect.top
  if spaceBelow < containerHeight ∧ spaceAbove > spaceBelow then
    { width := inputRect.width
      left := inputRect.left + scrollX
      top := inputRect.top + scrollY - containerHeight
      above := true }
  else
    { width := inputRect.width
      left := inputRect.left + scrollX
      top := inputRect.bottom + scrollY
      above := false }

/-! ### Listener registration and `destroy()` (claim C9) -/

/-- The listener tables the widget touches: each entry is an event name
paired with the identity of the registered callback function.  Each
`.bind(this)` call and each arrow-function literal evaluates to a brand
new function object, modelled by drawing a fresh identity from
`nextId`. -/
structure Registry where
  inputListeners : List (String × Nat)
  windowListeners : List (String × Nat)
  nextId : Nat
  deriving Repr, DecidableEq

/-- The registry before the constructor runs. -/
def emptyRegistry : Registry :=
  { inputListeners := [], windowListeners := [], nextId := 0 }

/-- Call `addEventListener(ev, fn)` on the input element. -/
def addInputListener (r : Registry) (ev : String) : Registry :=
  { r with inputListeners := r.inputListeners ++ [(ev, r.nextId)]
           nextId := r.nextId + 1 }

/-- Call `addEventListener(ev, fn)` on `window`. -/
def addWindowListener (r : Registry) (ev : String) : Registry :=
  { r with windowListeners := r.windowListeners ++ [(ev, r.nextId)]
           nextId := r.nextId + 1 }

/-- Call `removeEventListener(ev, fn)`: it removes the entry whose event name and
function identity both match; passing a function object that was never
registered removes nothing. -/
def removeEntry (l : List (String × Nat)) (ev : String) (id : Nat) :
    List (String × Nat) :=
  l.filter (fun p => ¬(p.1 = ev ∧ p.2 = id))

/-- Call `removeEventListener(ev, fn)` on the input element, where `fn` is a
freshly created function object (`handler.bind(this)` evaluated at the
removal site): a fresh identity is drawn and the matching entry — there
is none — is removed. -/
def removeInputListenerFresh (r : Registry) (ev : String) : Registry :=
  { r with inputListeners := removeEntry r.inputListeners ev r.nextId
           nextId := r.nextId + 1 }

/-- Call `removeEventListener(ev, fn)` on `window` with a freshly bound `fn`. -/
def removeWindowListenerFresh (r : Registry) (ev : String) : Registry :=
  { r with windowListeners := removeEntry r.windowListeners ev r.nextId
           nextId := r.nextId + 1 }

/-- Method `setupEventListeners()` of the TS build (no dropdown icon): adds
`input`, `focus`, `blur`, and `keydown` listeners on the input element
and `resize` and `scroll` listeners on `window`, each callback a fresh
`.bind(this)` result (the blur handler a fresh arrow function). -/
def setupEventListeners (r : Registry) : Registry :=
  addWindowListener (addWindowListener
    (addInputListener (addInputListener (addInputListener (addInputListener r
      "input") "focus") "blur") "keydown")
    "resize") "scroll"

/-- The listener-removal part of `destroy()` of the TS build
(`src/autocomplete.ts` lines 414-418): it calls `removeEventListener`
for `input`, `focus`, and `keydown` on the input element and for
`resize` on `window`, each time passing a *newly created*
`handler.bind(this)` function; the `blur` listener and the window
`scroll` listener are not touched at all. -/
def destroyListeners (r : Registry) : Registry :=
  removeWindowListenerFresh
    (removeInputListenerFresh (removeInputListenerFresh
      (removeInputListenerFresh r "input") "focus") "keydown")
    "resize"

/-! ### Default suggestion renderer (claim C10) -/

/-- What a suggestion element's content is set through: `textContent`
(never parsed as markup) or `innerHTML` (parsed as markup). -/
inductive RenderedContent where
  | text (s : String)
  | html (s : String)
  deriving Repr, DecidableEq

/-- The default `renderSuggestion` closure installed by the constructor
(`src/autocomplete.ts` lines 74-83): when `allowHTML` is set it assigns
`element.innerHTML = sanitizeHTML(formatSuggestionHTML(suggestion))`,
otherwise it assigns `element.textContent =
formatSelectedItem(suggestion)`. -/
def defaultRenderSuggestion (allowHTML : Bool)
    (formatSelectedItem : T → String) (formatSuggestionHTML : T → String)
    (sanitizeHTML : String → String) (suggestion : T) : RenderedContent :=
  if allowHTML = true then
    .html (sanitizeHTML (formatSuggestionHTML suggestion))
  else
    .text (formatSelectedItem suggestion)

/-! ## Theorems -/

theorem inv_init (T : Type) (m : Nat) : Inv m (initState T) := by
  refine ⟨le_refl _, by simp [initState], by simp [initState], by simp [initState]⟩

theorem inv_hide {T : Type} (m : Nat) (s : AcState T) (h : Inv m s) :
    Inv m (hide s) := by
  obtain ⟨h1, h2, h3, h4⟩ := h
  refine ⟨?_, ?_, ?_, ?_⟩ <;> simp only [hide]
  · omega
  · omega
  · exact h3
  · simp

theorem inv_step {T : Type} (m : Nat) (fmt : T → String) (s : AcState T)
    (e : Event T) (h : Inv m s) : Inv m (step m fmt s e) := by
  obtain ⟨h1, h2, h3, h4⟩ := h
  cases e with
  | fetchOk xs =>
      simp only [step, fetchResultStep, storeFetched, showPanel, render, hide]
      split
      · exact ⟨by dsimp only; omega, by dsimp only; omega,
          by dsimp only; exact List.length_take_le m xs, fun _ => rfl⟩
      · exact ⟨by dsimp only; omega, by dsimp only; omega,
          by dsimp only; exact List.length_take_le m xs, by simp⟩
  | fetchErr =>
      simpa only [step] using inv_hide m s ⟨h1, h2, h3, h4⟩
  | key k =>
      simp only [step, handleKeyDown]
      by_cases hv : s.visible = false
      · rw [if_pos hv]
        exact ⟨h1, h2, h3, h4⟩
      · rw [if_neg hv]
        cases k with
        | arrowDown =>
            refine ⟨?_, ?_, ?_, ?_⟩ <;> dsimp only
            · omega
            · omega
            · exact h3
            · exact h4
        | arrowUp =>
            refine ⟨?_, ?_, ?_, ?_⟩ <;> dsimp only
            · omega
            · omega
            · exact h3
            · exact h4
        | enter =>
            dsimp only
            split
            · split
              · dsimp only [selectSuggestion]
                exact inv_hide m s ⟨h1, h2, h3, h4⟩
              · exact ⟨h1, h2, h3, h4⟩
            · exact ⟨h1, h2, h3, h4⟩
        | escape =>
            dsimp only
            exact inv_hide m s ⟨h1, h2, h3, h4⟩
        | other => exact ⟨h1, h2, h3, h4⟩
  | hover i =>
      simp only [step]
      split
      · rename_i hcond
        obtain ⟨hvis, hlt⟩ := hcond
        have hrs : s.rendered = s.suggestions := h4 hvis
        rw [hrs] at hlt
        refine ⟨?_, ?_, ?_, ?_⟩ <;> dsimp only
        · omega
        · omega
        · exact h3
        · exact fun _ => hrs
      · exact ⟨h1, h2, h3, h4⟩
  | blurHide =>
      simpa only [step] using inv_hide m s ⟨h1, h2, h3, h4⟩

theorem inv_foldl {T : Type} (m : Nat) (fmt : T → String)
    (events : List (Event T)) :
    ∀ s : AcState T, Inv m s → Inv m (events.foldl (step m fmt) s) := by
  induction events with
  | nil => intro s hs; exact hs
  | cons e rest ih =>
      intro s hs
      exact ih _ (inv_step m fmt s e hs)

/-- C1: every state reachable by any sequence of fetch results, fetch
errors, key events, hovers, and blur-hides satisfies the invariant: the
active index lies in `[-1, suggestions.length - 1]` and the stored
suggestion list never exceeds the configured maximum; moreover `render`
and `hide` reset the active index to `-1`, and while visible hovering an
item sets the active index to that item's rendered index. -/
theorem c1_reachable_state_invariant (T : Type) (m : Nat)
    (fmt : T → String) (events : List (Event T)) :
    Inv m (run m fmt events) ∧
      (∀ s : AcState T, (render s).activeIndex = -1 ∧
        (hide s).activeIndex = -1) ∧
      (∀ (s : AcState T) (i : Nat),
        s.visible = true ∧ i < s.rendered.length →
          (step m fmt s (.hover i)).activeIndex = (i : Int)) := by
  refine ⟨inv_foldl m fmt events (initState T) (inv_init T m),
    fun s => ⟨rfl, rfl⟩, fun s i hc => ?_⟩
  simp only [step]
  rw [if_pos hc]

theorem c1_reachable_state_invariant_witness :
    Inv 5 (run 5 (fun n : Nat => toString n)
      [Event.fetchOk [10, 20, 30], Event.key .arrowDown, Event.key .arrowDown,
        Event.hover 2, Event.key .arrowUp]) ∧
    (step 5 (fun n : Nat => toString n)
      (⟨[10, 20], 0, true, [10, 20]⟩ : AcState Nat) (.hover 1)).activeIndex = 1 := by
  exact ⟨(c1_reachable_state_invariant Nat 5 (fun n => toString n)
      [Event.fetchOk [10, 20, 30], Event.key .arrowDown, Event.key .arrowDown,
        Event.hover 2, Event.key .arrowUp]).1,
    (c1_reachable_state_invariant Nat 5 (fun n => toString n) []).2.2
      ⟨[10, 20], 0, true, [10, 20]⟩ 1 (by decide)⟩

/-- C2: whenever an input or focus event fires and the trimmed input
value is shorter than the configured minimum length, then outside the
empty-and-focused special case the handler hides the panel at once and
arms no timer (so the suggestion source is never invoked for that
event), while an empty trimmed value on a focused field instead
schedules a debounced fetch for the empty query. -/
theorem c2_short_input_hides_and_never_fetches (minChars : Nat)
    (rawValue : String) (focused : Bool) (T : Type) (s : AcState T)
    (d : DebounceState)
    (hshort : (jsTrim rawValue).length < minChars) :
    (¬((jsTrim rawValue).length = 0 ∧ focused = true) →
        handleInput minChars rawValue focused = .hideNow ∧
        inputEventFull minChars s d rawValue focused =
          (hide s, ⟨none, d.fetched⟩)) ∧
    ((jsTrim rawValue).length = 0 ∧ focused = true →
        handleInput minChars rawValue focused = .schedule "" ∧
        (inputEventFull minChars s d rawValue focused).2 =
          ⟨some "", d.fetched⟩) := by
  constructor
  · intro hne
    have hh : handleInput minChars rawValue focused = .hideNow := by
      unfold handleInput
      rw [if_neg hne, if_pos hshort]
    exact ⟨hh, by simp only [inputEventFull, hh]⟩
  · intro hef
    have hh : handleInput minChars rawValue focused = .schedule "" := by
      unfold handleInput
      rw [if_pos hef]
    exact ⟨hh, by simp only [inputEventFull, hh]⟩

theorem c2_short_input_hides_and_never_fetches_witness :
    handleInput 2 "a" false = InputAction.hideNow ∧
    inputEventFull 2 (⟨[3], 0, true, [3]⟩ : AcState Nat) ⟨some "x", []⟩
        "a" false = (⟨[3], -1, false, [3]⟩, ⟨none, []⟩) := by
  have h := (c2_short_input_hides_and_never_fetches 2 "a" false Nat
      ⟨[3], 0, true, [3]⟩ ⟨some "x", []⟩ (by decide)).1 (by decide)
  exact ⟨h.1, h.2.trans rfl⟩

/-- C3: the list the fetch handler stores (and, when non-empty, renders)
is exactly the first `min(length, maxSuggestions)` items of the source's
result, in the source's order: the count never exceeds the configured
maximum and every kept position agrees with the source list. -/
theorem c3_truncation_preserves_order (T : Type) (m : Nat) (xs : List T)
    (s : AcState T) :
    (storeFetched m xs).length = min xs.length m ∧
    (storeFetched m xs).length ≤ m ∧
    (∀ i : Nat, i < m → (storeFetched m xs)[i]? = xs[i]?) ∧
    (fetchResultStep m s xs).suggestions = storeFetched m xs ∧
    (0 < (storeFetched m xs).length →
      (fetchResultStep m s xs).rendered = storeFetched m xs) := by
  refine ⟨?_, ?_, ?_, ?_, ?_⟩
  · simp [storeFetched, List.length_take, Nat.min_comm]
  · exact List.length_take_le m xs
  · intro i hi
    simp [storeFetched, List.getElem?_take, hi]
  · simp only [fetchResultStep]
    split <;> rfl
  · intro hpos
    simp only [fetchResultStep]
    rw [if_pos hpos]
    rfl

theorem c3_truncation_preserves_order_witness :
    (storeFetched 2 [10, 20, 30, 40, 50]).length = 2 ∧
    (storeFetched 2 [10, 20, 30, 40, 50])[0]? = some 10 ∧
    (storeFetched 2 [10, 20, 30, 40, 50])[1]? = some 20 ∧
    (fetchResultStep 2 (initState Nat) [10, 20, 30, 40, 50]).rendered
      = [10, 20] := by
  have h := c3_truncation_preserves_order Nat 2 [10, 20, 30, 40, 50]
    (initState Nat)
  exact ⟨h.1.trans (by decide), (h.2.2.1 0 (by decide)).trans (by decide),
    (h.2.2.1 1 (by decide)).trans (by decide),
    (h.2.2.2.2 (by decide)).trans (by decide)⟩

theorem inputEvent_fetched (minChars : Nat) (d : DebounceState)
    (v : String) (focused : Bool) :
    (inputEvent minChars d v focused).fetched = d.fetched := by
  unfold inputEvent
  cases handleInput minChars v focused <;> rfl

theorem inputEvent_long (minChars : Nat) (d : DebounceState) (v : String)
    (focused : Bool) (h1 : 1 ≤ minChars)
    (h2 : minChars ≤ (jsTrim v).length) :
    inputEvent minChars d v focused = ⟨some (jsTrim v), d.fetched⟩ := by
  have hh : handleInput minChars v focused = .schedule (jsTrim v) := by
    unfold handleInput
    rw [if_neg (by rintro ⟨h0, _⟩; omega), if_neg (by omega)]
  simp only [inputEvent, hh]

theorem foldl_inputEvent_fetched (minChars : Nat) (focused : Bool)
    (vs : List String) :
    ∀ d : DebounceState,
      (vs.foldl (fun d v => inputEvent minChars d v focused) d).fetched
        = d.fetched := by
  induction vs with
  | nil => intro d; rfl
  | cons v rest ih =>
      intro d
      rw [List.foldl_cons, ih, inputEvent_fetched]

/-- C4: when several input/focus events occur inside the debounce window
(so the timer never fires in between), each event cancels the
outstanding timer before arming a new one: no fetch at all is issued
during the sequence, and the single timer expiry that follows issues
exactly one fetch, for the trimmed value of the final event only. -/
theorem c4_debounce_exactly_one_fetch (minChars : Nat) (focused : Bool)
    (vs : List String) (vfinal : String) (h1 : 1 ≤ minChars)
    (hall : ∀ v ∈ vs ++ [vfinal], minChars ≤ (jsTrim v).length) :
    ((vs ++ [vfinal]).foldl (fun d v => inputEvent minChars d v focused)
        ⟨none, []⟩).fetched = [] ∧
    timerFire ((vs ++ [vfinal]).foldl
        (fun d v => inputEvent minChars d v focused) ⟨none, []⟩)
      = ⟨none, [jsTrim vfinal]⟩ := by
  have hlast : (vs ++ [vfinal]).foldl
      (fun d v => inputEvent minChars d v focused) ⟨none, []⟩
      = ⟨some (jsTrim vfinal), []⟩ := by
    rw [List.foldl_append, List.foldl_cons, List.foldl_nil,
      inputEvent_long minChars _ vfinal focused h1
        (hall vfinal (by simp)),
      foldl_inputEvent_fetched]
  rw [hlast]
  exact ⟨rfl, rfl⟩

theorem c4_debounce_exactly_one_fetch_witness :
    timerFire ((["ab"] ++ ["abcd"]).foldl
        (fun d v => inputEvent 2 d v false) ⟨none, []⟩)
      = ⟨none, ["abcd"]⟩ ∧
    ((["ab"] ++ ["abcd"]).foldl (fun d v => inputEvent 2 d v false)
        ⟨none, []⟩).fetched = [] := by
  have h := c4_debounce_exactly_one_fetch 2 false ["ab"] "abcd"
    (by decide) (by decide)
  exact ⟨h.2.trans (by decide), h.1⟩

/-- C5: selecting a suggestion — by clicking its element (which calls
`selectSuggestion(suggestion)` directly) or by pressing Enter while it
is highlighted — sets the input field's value to
`formatSelectedItem(item)`, invokes `onSelect` exactly once with the
item itself unmodified, and afterwards hides the panel. -/
theorem c5_selection_effects (T : Type) (fmt : T → String) (s : AcState T)
    (item : T) (hvis : s.visible = true) (hidx : 0 ≤ s.activeIndex)
    (hget : s.suggestions[s.activeIndex.toNat]? = some item) :
    (selectSuggestion fmt s item).inputValue = fmt item ∧
    (selectSuggestion fmt s item).onSelectArgs = [item] ∧
    (selectSuggestion fmt s item).state.visible = false ∧
    handleKeyDown fmt s .enter =
      { state := hide s, preventDefault := true, selected := some item,
        inputValue := some (fmt item) } := by
  refine ⟨rfl, rfl, rfl, ?_⟩
  have hv : ¬(s.visible = false) := by rw [hvis]; simp
  simp only [handleKeyDown]
  rw [if_neg hv]
  rw [if_pos hidx, hget]
  rfl

theorem c5_selection_effects_witness :
    handleKeyDown (fun _ : Nat => "seven") ⟨[7], 0, true, [7]⟩ .enter =
      { state := ⟨[7], -1, false, [7]⟩, preventDefault := true,
        selected := some 7, inputValue := some "seven" } ∧
    (selectSuggestion (fun _ : Nat => "seven")
        (⟨[7], 0, true, [7]⟩ : AcState Nat) 7).onSelectArgs = [7] := by
  have h := c5_selection_effects Nat (fun _ => "seven")
    ⟨[7], 0, true, [7]⟩ 7 rfl (by decide) (by decide)
  exact ⟨h.2.2.2.trans (by decide), h.2.1⟩

/-- C6 counterexample: in the JS build, a malformed non-array result is
*not* treated as "no suggestions": with the panel visible, a malformed
result leaves the panel visible, while an empty (no-suggestions) result
hides it. -/
theorem c6_counterexample :
    (handleFetchResultJS 5 (⟨.arr [0], true⟩ : FetchState Nat)
        FetchOutcome.malformed).state.visible = true ∧
    (handleFetchResultJS 5 (⟨.arr [0], true⟩ : FetchState Nat)
        (.ok [])).state.visible = false := by
  decide

/-- C6 (amended): a throwing or rejecting source is caught, logged, and
turned into a hidden panel in both builds, with nothing propagated to
the caller; a malformed non-sequence result also never propagates, but
its treatment differs from "no suggestions": the TS build has no
pre-use check — the `TypeError` raised by slicing the non-array is
caught by the same handler, which logs and hides — while the JS build
detects it with `Array.isArray` before slicing and then leaves the
panel's visibility unchanged, logging nothing, with the junk value left
in the `suggestions` field. -/
theorem c6_amended_fetch_fault_handling (T : Type) (m : Nat)
    (st : FetchState T) :
    (handleFetchResultTS m st .error).propagated = false ∧
    (handleFetchResultTS m st .error).logged = true ∧
    (handleFetchResultTS m st .error).state.visible = false ∧
    handleFetchResultJS m st .error = handleFetchResultTS m st .error ∧
    handleFetchResultTS m st .malformed =
      { state := ⟨.junk, false⟩, logged := true, propagated := false } ∧
    handleFetchResultJS m st .malformed =
      { state := ⟨.junk, st.visible⟩, logged := false,
        propagated := false } := by
  exact ⟨rfl, rfl, rfl, rfl, rfl, rfl⟩

/-- C7 counterexample: with the panel visible and no item highlighted,
Enter does *not* suppress the input field's default key behavior (no
`preventDefault` call), refuting "all four of these keys suppress the
input field's default key behavior". -/
theorem c7_counterexample :
    (⟨[1], -1, true, [1]⟩ : AcState Nat).visible = true ∧
    (handleKeyDown (fun _ : Nat => "") ⟨[1], -1, true, [1]⟩
        Key.enter).preventDefault = false := by
  decide

/-- C7 (amended): the key handler does nothing while the panel is
hidden; while visible, ArrowDown advances the active index by one
clamped to the last suggestion, ArrowUp decreases it by one clamped to
`-1`, Enter commits the selection only if an item is active, and Escape
hides the panel; ArrowDown, ArrowUp and Escape always suppress the
default key behavior while the panel is visible, whereas Enter
suppresses it only when an item is active (with no active item Enter
neither commits nor suppresses). -/
theorem c7_amended_keyboard (T : Type) (fmt : T → String) (s : AcState T)
    (k : Key) (item : T) :
    (s.visible = false → handleKeyDown fmt s k =
      { state := s, preventDefault := false, selected := none,
        inputValue := none }) ∧
    (s.visible = true →
      handleKeyDown fmt s .arrowDown =
        { state := { s with activeIndex := min (s.activeIndex + 1) ((s.suggestions.length : Int) - 1) },
          preventDefault := true, selected := none, inputValue := none } ∧
      handleKeyDown fmt s .arrowUp =
        { state := { s with activeIndex := max (s.activeIndex - 1) (-1) },
          preventDefault := true, selected := none, inputValue := none } ∧
      (s.activeIndex < 0 → handleKeyDown fmt s .enter =
        { state := s, preventDefault := false, selected := none,
          inputValue := none }) ∧
      (0 ≤ s.activeIndex →
        s.suggestions[s.activeIndex.toNat]? = some item →
        handleKeyDown fmt s .enter =
          { state := hide s, preventDefault := true, selected := some item,
            inputValue := some (fmt item) }) ∧
      handleKeyDown fmt s .escape =
        { state := hide s, preventDefault := true, selected := none,
          inputValue := none }) := by
  constructor
  · intro hv
    simp only [handleKeyDown]
    rw [if_pos hv]
  · intro hvis
    have hv : ¬(s.visible = false) := by rw [hvis]; simp
    refine ⟨?_, ?_, ?_, ?_, ?_⟩
    · simp only [handleKeyDown]
      rw [if_neg hv]
    · simp only [handleKeyDown]
      rw [if_neg hv]
    · intro hneg
      simp only [handleKeyDown]
      rw [if_neg hv]
      rw [if_neg (by omega)]
    · intro hpos hget
      simp only [handleKeyDown]
      rw [if_neg hv]
      rw [if_pos hpos, hget]
      rfl
    · simp only [handleKeyDown]
      rw [if_neg hv]

theorem c7_amended_keyboard_witness :
    handleKeyDown (fun _ : Nat => "x") (⟨[7], 0, true, [7]⟩ : AcState Nat)
        Key.escape =
      { state := ⟨[7], -1, false, [7]⟩, preventDefault := true,
        selected := none, inputValue := none } ∧
    handleKeyDown (fun _ : Nat => "x") (⟨[7], -1, true, [7]⟩ : AcState Nat)
        Key.enter =
      { state := ⟨[7], -1, true, [7]⟩, preventDefault := false,
        selected := none, inputValue := none } := by
  have h := (c7_amended_keyboard Nat (fun _ => "x") ⟨[7], 0, true, [7]⟩
    Key.other 7).2 rfl
  have h2 := (c7_amended_keyboard Nat (fun _ => "x") ⟨[7], -1, true, [7]⟩
    Key.other 7).2 rfl
  exact ⟨h.2.2.2.2.trans (by decide), h2.2.2.1 (by decide)⟩

/-- C8: on show and on every reposition, `updateContainerPosition` sets
the panel's width to the input's bounding-rectangle width and its left
offset to the input's left edge in page coordinates
(`inputRect.left + window.scrollX`), and places the panel above the
input exactly when the viewport space below the input
(`innerHeight - inputRect.bottom`) is less than the panel's height and
the space above (`inputRect.top`) is greater than the space below — and
below the input otherwise. -/
theorem c8_positioning (inputRect : Rect)
    (containerHeight innerHeight scrollX scrollY : Int) :
    (updateContainerPosition inputRect containerHeight innerHeight
        scrollX scrollY).width = inputRect.width ∧
    (updateContainerPosition inputRect containerHeight innerHeight
        scrollX scrollY).left = inputRect.left + scrollX ∧
    ((updateContainerPosition inputRect containerHeight innerHeight
        scrollX scrollY).above = true ↔
      (innerHeight - inputRect.bottom < containerHeight ∧
        inputRect.top > innerHeight - inputRect.bottom)) := by
  unfold updateContainerPosition
  dsimp only
  split
  · rename_i hc
    exact ⟨rfl, rfl, iff_of_true rfl hc⟩
  · rename_i hc
    exact ⟨rfl, rfl, iff_of_false (by simp) hc⟩

/-- C9 (evaluation at the failing input): after the constructor's
`setupEventListeners` and then `destroy()`, every one of the six
registered listeners is still registered — `destroy()` passes freshly
created `.bind(this)` functions to `removeEventListener`, which remove
nothing, and never even attempts to remove the `blur` and window
`scroll` listeners. -/
theorem c9_destroy_leaves_all_listeners_registered :
    (destroyListeners (setupEventListeners emptyRegistry)).inputListeners
      = (setupEventListeners emptyRegistry).inputListeners ∧
    (destroyListeners (setupEventListeners emptyRegistry)).windowListeners
      = (setupEventListeners emptyRegistry).windowListeners ∧
    (setupEventListeners emptyRegistry).inputListeners
      = [("input", 0), ("focus", 1), ("blur", 2), ("keydown", 3)] ∧
    (setupEventListeners emptyRegistry).windowListeners
      = [("resize", 4), ("scroll", 5)] := by
  decide

/-- C10: with the default renderer and `allowHTML` at its default
`false`, the suggestion element's content is set via `textContent` from
`formatSelectedItem`'s string — so the result never depends on
`formatSuggestionHTML` or `sanitizeHTML` (they are not invoked) and no
source-derived string is interpreted as HTML markup. -/
theorem c10_default_renderer_never_interprets_html (T : Type)
    (formatSelectedItem : T → String) (f1 f2 : T → String)
    (g1 g2 : String → String) (suggestion : T) :
    defaultRenderSuggestion false formatSelectedItem f1 g1 suggestion
      = .text (formatSelectedItem suggestion) ∧
    defaultRenderSuggestion false formatSelectedItem f1 g1 suggestion
      = defaultRenderSuggestion false formatSelectedItem f2 g2 suggestion := by
  exact ⟨rfl, rfl⟩

end Autocomplete
